import Mathlib

/-!
Shallow embedding of the response-cache core of `app.py`:
the cache store (load / save / prune / get / set / stats), the request
fingerprint (`get_cache_key`), and the chat client (`send_chat_message`).

Python strings are modelled as lists of unicode scalar values
(`List Char`); the in-memory `api_cache` dict as an association list with
Python-dict update semantics; `time.time()` as an explicit `Int`-valued
parameter threaded to every operation that reads the clock; the filesystem
as an explicit record holding the contents of the two files the cache code
writes (`cache/api_cache.pkl` and `test_reponse.json`).
-/

/-- Python `str`: a sequence of unicode scalar values. -/
abbrev Str := List Char

/-- Decoded JSON payloads (what `response.json()` returns and what the
cache stores verbatim). -/
inductive Json where
  | null
  | bool (b : Bool)
  | num (n : Int)
  | str (s : Str)
  | arr (elems : List Json)
  | obj (fields : List (Str × Json))

instance : Inhabited Json := ⟨Json.null⟩

/-- `CACHE_DURATION = 3600` (seconds), from the configuration block. -/
def CACHE_DURATION : Int := 3600

/-- One value of the `api_cache` dict: `{"response": ..., "timestamp": ...}`
as written by `set_cached_response`. -/
structure CacheEntry where
  response : Json
  timestamp : Int

instance : Inhabited CacheEntry := ⟨⟨Json.null, 0⟩⟩

/-- The in-memory `api_cache` dict, as an association list from cache key
to entry, in insertion order (Python dicts preserve insertion order). -/
abbrev Store := List (Str × CacheEntry)

/-- Python `cache_key in api_cache` / `api_cache[cache_key]`: first (and,
for a genuine dict, only) binding of the key. -/
def lookupKey (k : Str) : Store → Option CacheEntry
  | [] => none
  | (k', v) :: rest => if k' = k then some v else lookupKey k rest

/-- Python `api_cache[cache_key] = v`: replace the binding in place if the
key is present, otherwise append it. -/
def dictSet (k : Str) (v : CacheEntry) : Store → Store
  | [] => [(k, v)]
  | (k', v') :: rest => if k' = k then (k, v) :: rest else (k', v') :: dictSet k v rest

/-- Python `del api_cache[cache_key]`: drop the binding of the key. -/
def dictDel (k : Str) : Store → Store
  | [] => []
  | (k', v') :: rest => if k' = k then rest else (k', v') :: dictDel k rest

/-- Contents of the pickle file `cache/api_cache.pkl`: either a pickled
store or bytes that `pickle.load` fails on. -/
inductive CacheBlob where
  | valid (data : Store)
  | corrupt

/-- The two files the cache code touches: `CACHE_FILE` (the pickle blob)
and `test_reponse.json` (the JSON dump `save_cache_to_file` also writes);
`none` means the file does not exist. -/
structure FileSystem where
  cacheFile : Option CacheBlob
  testFile : Option Store

/-- Python `pickle.load` on the blob: the pickled store, or an error for
undecodable bytes. -/
def pickleLoad : CacheBlob → Except Str Store
  | CacheBlob.valid data => Except.ok data
  | CacheBlob.corrupt => Except.error (['u', 'n', 'p', 'i', 'c', 'k', 'l', 'e'])

/-- `load_cache_from_file` (app.py:40-52): if `CACHE_FILE.exists()`, try to
unpickle it; any exception is caught and logged; in every failure path the
function falls through to `return {}`. -/
def load_cache_from_file (fs : FileSystem) : Store :=
  match fs.cacheFile with
  | none => []
  | some blob =>
    match pickleLoad blob with
    | Except.ok cache_data => cache_data
    | Except.error _ => []

/-- `save_cache_to_file` (app.py:54-63): pickle the whole dict to
`CACHE_FILE`, and also `json.dump` the same dict to `test_reponse.json`. -/
def save_cache_to_file (cache_data : Store) (_fs : FileSystem) : FileSystem :=
  { cacheFile := some (CacheBlob.valid cache_data), testFile := some cache_data }

/-- Loop body of `cleanup_expired_cache` (app.py:71-75): split the dict
into the fresh entries (in order) and the count of expired ones. -/
def cleanupScan (current_time : Int) : Store → Store × Nat
  | [] => ([], 0)
  | (cache_key, cached_item) :: rest =>
    let (cleaned, expired) := cleanupScan current_time rest
    if current_time - cached_item.timestamp < CACHE_DURATION then
      ((cache_key, cached_item) :: cleaned, expired)
    else
      (cleaned, expired + 1)

/-- `cleanup_expired_cache` (app.py:65-81): keep the fresh entries; if any
entry was expired, persist the cleaned dict; return the cleaned dict. -/
def cleanup_expired_cache (current_time : Int) (cache_data : Store) (fs : FileSystem) :
    Store × FileSystem :=
  let (cleaned_cache, expired_count) := cleanupScan current_time cache_data
  if expired_count > 0 then (cleaned_cache, save_cache_to_file cleaned_cache fs)
  else (cleaned_cache, fs)

/-- Startup sequence (app.py:83-85): `api_cache = load_cache_from_file()`
then `api_cache = cleanup_expired_cache(api_cache)`. -/
def startupCache (now : Int) (fs : FileSystem) : Store × FileSystem :=
  let api_cache := load_cache_from_file fs
  cleanup_expired_cache now api_cache fs

/-- `get_cached_response` (app.py:98-112): on a fresh hit return the stored
response; on a stale hit delete the entry and persist; otherwise a miss. -/
def get_cached_response (now : Int) (cache_key : Str) (st : Store) (fs : FileSystem) :
    Option Json × Store × FileSystem :=
  match lookupKey cache_key st with
  | some cached_data =>
    if now - cached_data.timestamp < CACHE_DURATION then
      (some cached_data.response, st, fs)
    else
      let st' := dictDel cache_key st
      (none, st', save_cache_to_file st' fs)
  | none => (none, st, fs)

/-- `set_cached_response` (app.py:114-125): store `{"response": response,
"timestamp": time.time()}` under the key, then persist the whole dict. -/
def set_cached_response (now : Int) (cache_key : Str) (response : Json)
    (st : Store) (fs : FileSystem) : Store × FileSystem :=
  let st' := dictSet cache_key { response := response, timestamp := now } st
  (st', save_cache_to_file st' fs)

/-- Counting loop of `show_cache_info` (app.py:1001-1009): number of active
and of expired entries at the given time. -/
def statsScan (current_time : Int) : Store → Nat × Nat
  | [] => (0, 0)
  | (_, cache_data) :: rest =>
    let (active, expired) := statsScan current_time rest
    if current_time - cache_data.timestamp < CACHE_DURATION then (active + 1, expired)
    else (active, expired + 1)

/-- The numbers `show_cache_info` (app.py:982-1035) reports: total entry
count (`len(api_cache)`), active count, expired count. -/
def show_cache_info_counts (current_time : Int) (st : Store) : Nat × Nat × Nat :=
  (st.length, statsScan current_time st)

/-! ### Lemmas about the dict operations -/

theorem lookupKey_dictSet (q k : Str) (v : CacheEntry) (st : Store) :
    lookupKey q (dictSet k v st) = if k = q then some v else lookupKey q st := by
  induction st with
  | nil => simp [dictSet, lookupKey]
  | cons p rest ih =>
    obtain ⟨k', v'⟩ := p
    by_cases hk : k' = k
    · by_cases hq : k = q
      · simp [dictSet, hk, lookupKey, hq]
      · have hk'q : ¬ k' = q := fun h => hq (hk ▸ h)
        simp [dictSet, hk, lookupKey, hq, hk'q]
    · by_cases hq : k' = q
      · have hkq : ¬ k = q := fun h => hk (hq.trans h.symm)
        have hqk : ¬ q = k := fun h => hkq h.symm
        simp [dictSet, hk, lookupKey, hq, hkq, hqk]
      · simp [dictSet, lookupKey, hk, hq, ih]

theorem lookupKey_of_not_mem (q : Str) (st : Store)
    (h : q ∉ st.map Prod.fst) : lookupKey q st = none := by
  induction st with
  | nil => rfl
  | cons p rest ih =>
    obtain ⟨k', v'⟩ := p
    simp only [List.map_cons, List.mem_cons] at h
    push_neg at h
    have hne : ¬ k' = q := fun hh => h.1 hh.symm
    simp [lookupKey, hne, ih h.2]

theorem lookupKey_dictDel (q k : Str) (st : Store)
    (hnd : (st.map Prod.fst).Nodup) :
    lookupKey q (dictDel k st) = if k = q then none else lookupKey q st := by
  induction st with
  | nil => simp [dictDel, lookupKey]
  | cons p rest ih =>
    obtain ⟨k', v'⟩ := p
    simp only [List.map_cons, List.nodup_cons] at hnd
    obtain ⟨hmem, hrest⟩ := hnd
    by_cases hk : k' = k
    · by_cases hq : k = q
      · have hq' : k' = q := hk.trans hq
        have : lookupKey q rest = none :=
          lookupKey_of_not_mem q rest (hq' ▸ hmem)
        simp [dictDel, hk, hq, this]
      · have hk'q : ¬ k' = q := fun h => hq (hk ▸ h)
        simp [dictDel, hk, lookupKey, hq, hk'q]
    · by_cases hq : k' = q
      · have hkq : ¬ k = q := fun h => hk (hq.trans h.symm)
        have hqk : ¬ q = k := fun h => hkq h.symm
        simp [dictDel, hk, lookupKey, hq, hkq, hqk]
      · simp [dictDel, lookupKey, hk, hq, ih hrest]

theorem dictDel_no_key (k : Str) (st : Store)
    (hnd : (st.map Prod.fst).Nodup) :
    ∀ p ∈ dictDel k st, p.1 ≠ k := by
  induction st with
  | nil => simp [dictDel]
  | cons q rest ih =>
    obtain ⟨k', v'⟩ := q
    simp only [List.map_cons, List.nodup_cons] at hnd
    obtain ⟨hmem, hrest⟩ := hnd
    by_cases hk : k' = k
    · subst hk
      intro p hp hpk
      simp only [dictDel, if_pos rfl] at hp
      exact hmem (hpk ▸ List.mem_map_of_mem Prod.fst hp)
    · intro p hp
      simp only [dictDel, if_neg hk, List.mem_cons] at hp
      rcases hp with h | h
      · rw [h]; exact hk
      · exact ih hrest p h

theorem lookupKey_length_pos (k : Str) (st : Store) (e : CacheEntry)
    (h : lookupKey k st = some e) : 0 < st.length := by
  cases st with
  | nil => simp [lookupKey] at h
  | cons p rest => simp

theorem dictDel_length (k : Str) (st : Store) (e : CacheEntry)
    (h : lookupKey k st = some e) : (dictDel k st).length = st.length - 1 := by
  induction st with
  | nil => simp [lookupKey] at h
  | cons p rest ih =>
    obtain ⟨k', v'⟩ := p
    by_cases hk : k' = k
    · simp [dictDel, hk]
    · simp only [lookupKey, if_neg hk] at h
      have hpos := lookupKey_length_pos k rest e h
      simp only [dictDel, if_neg hk, List.length_cons]
      rw [ih h]
      omega

/-! ### Lemmas about the prune scan -/

theorem cleanupScan_fst (t : Int) (st : Store) :
    (cleanupScan t st).1 =
      st.filter (fun p => decide (t - p.2.timestamp < CACHE_DURATION)) := by
  induction st with
  | nil => rfl
  | cons p rest ih =>
    obtain ⟨k', v'⟩ := p
    by_cases h : t - v'.timestamp < CACHE_DURATION
    · simp [cleanupScan, h, List.filter, ih]
    · simp [cleanupScan, h, List.filter, ih]

theorem cleanupScan_snd_zero (t : Int) (st : Store) :
    (cleanupScan t st).2 = 0 ↔ ∀ p ∈ st, t - p.2.timestamp < CACHE_DURATION := by
  induction st with
  | nil => simp [cleanupScan]
  | cons p rest ih =>
    obtain ⟨k', v'⟩ := p
    by_cases h : t - v'.timestamp < CACHE_DURATION
    · simp [cleanupScan, h, ih]
    · simp [cleanupScan, h]

/-- Empty filesystem: neither `cache/api_cache.pkl` nor `test_reponse.json`
exists yet. -/
def emptyFS : FileSystem := { cacheFile := none, testFile := none }

/-- C1: executing `set_cached_response` with (key, response, now) and then,
at any time now' with now' - now < CACHE_DURATION, executing
`get_cached_response` with the same key returns exactly the stored
response value. -/
theorem c1_set_then_get_returns_stored (cache_key : Str) (response : Json)
    (now now' : Int) (st : Store) (fs : FileSystem)
    (h : now' - now < CACHE_DURATION) :
    (get_cached_response now' cache_key
      (set_cached_response now cache_key response st fs).1
      (set_cached_response now cache_key response st fs).2).1 = some response := by
  simp [get_cached_response, set_cached_response, lookupKey_dictSet, h]

/-- Witness for C1 at a concrete input: key "k", response null, written at
time 0, read back at time 10 (within the 3600-second window). -/
theorem c1_set_then_get_returns_stored_witness :
    ((10 : Int) - 0 < CACHE_DURATION) ∧
    (get_cached_response 10 ['k']
      (set_cached_response 0 ['k'] Json.null [] emptyFS).1
      (set_cached_response 0 ['k'] Json.null [] emptyFS).2).1 = some Json.null :=
  ⟨by decide, c1_set_then_get_returns_stored ['k'] Json.null 0 10 [] emptyFS (by decide)⟩

/-- C2: if the stored entry for the key is stale (now - timestamp is at
least CACHE_DURATION), `get_cached_response` returns absent, deletes the
entry, persists the updated store, and the entry is gone from the store
that any later `show_cache_info` snapshot is computed over: no remaining
entry carries the key, and the total count drops by one. -/
theorem c2_expired_get_evicts (cache_key : Str) (e : CacheEntry) (now : Int)
    (st : Store) (fs : FileSystem)
    (hnd : (st.map Prod.fst).Nodup)
    (hlook : lookupKey cache_key st = some e)
    (hstale : ¬ (now - e.timestamp < CACHE_DURATION)) :
    (get_cached_response now cache_key st fs).1 = none
    ∧ (get_cached_response now cache_key st fs).2.1 = dictDel cache_key st
    ∧ (get_cached_response now cache_key st fs).2.2 =
        save_cache_to_file (dictDel cache_key st) fs
    ∧ lookupKey cache_key (dictDel cache_key st) = none
    ∧ (∀ p ∈ dictDel cache_key st, p.1 ≠ cache_key)
    ∧ (∀ now'' : Int,
        (show_cache_info_counts now'' (dictDel cache_key st)).1 = st.length - 1) := by
  refine ⟨?_, ?_, ?_, ?_, ?_, ?_⟩
  · simp [get_cached_response, hlook, hstale]
  · simp [get_cached_response, hlook, hstale]
  · simp [get_cached_response, hlook, hstale]
  · simp [lookupKey_dictDel _ _ _ hnd]
  · exact dictDel_no_key cache_key st hnd
  · intro now''
    simpa [show_cache_info_counts] using dictDel_length cache_key st e hlook

/-- Witness for C2 at a concrete input: one entry written at time 0,
looked up at time 3600, exactly the expiry boundary. -/
theorem c2_expired_get_evicts_witness :
    (((([(['k'], ({ response := Json.null, timestamp := 0 } : CacheEntry))]) :
        Store).map Prod.fst).Nodup)
    ∧ lookupKey ['k'] [(['k'], ({ response := Json.null, timestamp := 0 } : CacheEntry))]
        = some { response := Json.null, timestamp := 0 }
    ∧ ¬ ((3600 : Int) - (0 : Int) < CACHE_DURATION)
    ∧ (get_cached_response 3600 ['k']
        [(['k'], ({ response := Json.null, timestamp := 0 } : CacheEntry))] emptyFS).1 = none :=
  ⟨by decide, rfl, by decide,
    (c2_expired_get_evicts ['k'] { response := Json.null, timestamp := 0 } 3600
      [(['k'], { response := Json.null, timestamp := 0 })] emptyFS
      (by decide) rfl (by decide)).1⟩

/-- C7: `load_cache_from_file` is a total function of the persisted state:
an absent file yields the empty store, a blob that fails to deserialize
yields the empty store, and a valid blob yields exactly its contents. -/
theorem c7_load_never_raises (fs : FileSystem) :
    (fs.cacheFile = none → load_cache_from_file fs = [])
    ∧ (∀ blob msg, fs.cacheFile = some blob → pickleLoad blob = Except.error msg →
        load_cache_from_file fs = [])
    ∧ (∀ blob data, fs.cacheFile = some blob → pickleLoad blob = Except.ok data →
        load_cache_from_file fs = data) := by
  refine ⟨?_, ?_, ?_⟩
  · intro h; simp [load_cache_from_file, h]
  · intro blob msg hb he; simp [load_cache_from_file, hb, he]
  · intro blob data hb he; simp [load_cache_from_file, hb, he]

/-- Witness for C7 at concrete inputs: a corrupt blob loads as the empty
store. -/
theorem c7_load_never_raises_witness :
    ({ cacheFile := some CacheBlob.corrupt, testFile := none } : FileSystem).cacheFile
      = some CacheBlob.corrupt
    ∧ pickleLoad CacheBlob.corrupt
      = Except.error (['u', 'n', 'p', 'i', 'c', 'k', 'l', 'e'])
    ∧ load_cache_from_file { cacheFile := some CacheBlob.corrupt, testFile := none } = [] :=
  ⟨rfl, rfl,
    (c7_load_never_raises { cacheFile := some CacheBlob.corrupt, testFile := none }).2.1
      CacheBlob.corrupt (['u', 'n', 'p', 'i', 'c', 'k', 'l', 'e']) rfl rfl⟩

/-- C8: `cleanup_expired_cache now` keeps exactly the entries with
now - timestamp < CACHE_DURATION, unchanged and in order; it persists the
cleaned store when at least one entry was removed, and leaves both the
store and the filesystem untouched when none was; and at startup it runs
on exactly the store `load_cache_from_file` produced. -/
theorem c8_prune_spec (now : Int) (st : Store) (fs : FileSystem) :
    (cleanup_expired_cache now st fs).1 =
      st.filter (fun p => decide (now - p.2.timestamp < CACHE_DURATION))
    ∧ ((∃ p ∈ st, ¬ (now - p.2.timestamp < CACHE_DURATION)) →
        (cleanup_expired_cache now st fs).2 =
          save_cache_to_file (cleanup_expired_cache now st fs).1 fs)
    ∧ ((∀ p ∈ st, now - p.2.timestamp < CACHE_DURATION) →
        (cleanup_expired_cache now st fs).1 = st ∧
        (cleanup_expired_cache now st fs).2 = fs)
    ∧ (∀ fs0 : FileSystem,
        startupCache now fs0 = cleanup_expired_cache now (load_cache_from_file fs0) fs0) := by
  refine ⟨?_, ?_, ?_, fun _ => rfl⟩
  · simp only [cleanup_expired_cache, cleanupScan_fst]
    split <;> rfl
  · intro hex
    have hne : ¬ (cleanupScan now st).2 = 0 := by
      rw [cleanupScan_snd_zero]
      intro hall
      obtain ⟨p, hp, hpn⟩ := hex
      exact hpn (hall p hp)
    simp [cleanup_expired_cache, Nat.pos_of_ne_zero hne]
  · intro hall
    have hz : (cleanupScan now st).2 = 0 := (cleanupScan_snd_zero now st).2 hall
    constructor
    · rw [cleanup_expired_cache.eq_def]
      simp only [hz, cleanupScan_fst]
      simp only [gt_iff_lt, Nat.lt_irrefl, if_false]
      exact List.filter_eq_self.2 (fun p hp => by simpa using hall p hp)
    · simp [cleanup_expired_cache, hz]

/-- Witness for C8 at concrete inputs: a store holding one fresh and one
stale entry at time 3600 prunes to the fresh entry and persists; a store
holding only the fresh entry is left untouched. -/
theorem c8_prune_spec_witness :
    (∃ p ∈ ([(['a'], ({ response := Json.null, timestamp := 0 } : CacheEntry)),
             (['b'], ({ response := Json.null, timestamp := 600 } : CacheEntry))] : Store),
        ¬ ((3600 : Int) - p.2.timestamp < CACHE_DURATION))
    ∧ (cleanup_expired_cache 3600
        [(['a'], { response := Json.null, timestamp := 0 }),
         (['b'], { response := Json.null, timestamp := 600 })] emptyFS).2 =
        save_cache_to_file
          (cleanup_expired_cache 3600
            [(['a'], { response := Json.null, timestamp := 0 }),
             (['b'], { response := Json.null, timestamp := 600 })] emptyFS).1 emptyFS
    ∧ (∀ p ∈ ([(['b'], ({ response := Json.null, timestamp := 600 } : CacheEntry))] : Store),
        (3600 : Int) - p.2.timestamp < CACHE_DURATION)
    ∧ (cleanup_expired_cache 3600
        [(['b'], { response := Json.null, timestamp := 600 })] emptyFS).2 = emptyFS := by
  refine ⟨⟨(['a'], { response := Json.null, timestamp := 0 }), by simp, by decide⟩, ?_, ?_, ?_⟩
  · exact (c8_prune_spec 3600
      [(['a'], { response := Json.null, timestamp := 0 }),
       (['b'], { response := Json.null, timestamp := 600 })] emptyFS).2.1
      ⟨(['a'], { response := Json.null, timestamp := 0 }), by simp, by decide⟩
  · intro p hp
    simp only [List.mem_singleton] at hp
    rw [hp]
    decide
  · refine ((c8_prune_spec 3600
      [(['b'], { response := Json.null, timestamp := 600 })] emptyFS).2.2.1 ?_).2
    intro p hp
    simp only [List.mem_singleton] at hp
    rw [hp]
    decide

/-- C9 counterexample: a persist does not touch only the fixed cache file;
`save_cache_to_file` also creates/overwrites `test_reponse.json` (the
`json.dump` at app.py:60-61), observable from an initial state where that
file does not exist. -/
theorem c9_persist_touches_second_file :
    emptyFS.testFile = none
    ∧ (save_cache_to_file
        [(['k'], ({ response := Json.null, timestamp := 0 } : CacheEntry))] emptyFS).testFile
      = some [(['k'], ({ response := Json.null, timestamp := 0 } : CacheEntry))] :=
  ⟨rfl, rfl⟩

/-- C9 amended: every persist writes the entire key-to-entry mapping as a
single serialized blob to the one fixed cache-file path, and additionally
writes a JSON rendering of the same mapping to the fixed second file
`test_reponse.json`; the blob round-trips the whole mapping (arbitrary
nested payloads plus timestamps) through a reload. -/
theorem c9_persist_single_blob_roundtrip (st : Store) (fs : FileSystem) :
    (save_cache_to_file st fs).cacheFile = some (CacheBlob.valid st)
    ∧ (save_cache_to_file st fs).testFile = some st
    ∧ load_cache_from_file (save_cache_to_file st fs) = st :=
  ⟨rfl, rfl, rfl⟩

/-! ### The fingerprint function `get_cache_key` (app.py:87-96)

`json.dumps({"messages": messages, "model": model}, sort_keys=True)` with
the default separators and `ensure_ascii=True`, followed by
`hashlib.md5(...).hexdigest()` of the UTF-8 encoding. Dict keys come out
sorted, so each message serializes as `{"content": ..., "role": ...}` and
the top level as `{"messages": [...], "model": ...}`. -/

/-- One conversation turn, a `{"role": ..., "content": ...}` dict. -/
structure ChatMessage where
  role : Str
  content : Str
  deriving DecidableEq

/-- Lowercase hex digit, as `%x` formatting produces. -/
def hexDigitChar (n : Nat) : Char :=
  if n < 10 then Char.ofNat (48 + n) else Char.ofNat (87 + n)

/-- Four lowercase hex digits, as Python `'\\u%04x'` produces for
values below 0x10000. -/
def hex4 (n : Nat) : Str :=
  [hexDigitChar (n / 4096 % 16), hexDigitChar (n / 256 % 16),
   hexDigitChar (n / 16 % 16), hexDigitChar (n % 16)]

/-- Python `json` string escaping of one character with `ensure_ascii=True`:
the two-character escapes for backslash, quote, backspace, formfeed,
newline, carriage return and tab; `\uXXXX` for other control characters
and for all non-ASCII characters, with a surrogate pair for characters
beyond the basic multilingual plane. -/
def jsonEscapeChar (c : Char) : Str :=
  if c.toNat = 92 then [Char.ofNat 92, Char.ofNat 92]
  else if c.toNat = 34 then [Char.ofNat 92, Char.ofNat 34]
  else if c.toNat = 8 then [Char.ofNat 92, 'b']
  else if c.toNat = 12 then [Char.ofNat 92, 'f']
  else if c.toNat = 10 then [Char.ofNat 92, 'n']
  else if c.toNat = 13 then [Char.ofNat 92, 'r']
  else if c.toNat = 9 then [Char.ofNat 92, 't']
  else if c.toNat < 32 then Char.ofNat 92 :: 'u' :: hex4 c.toNat
  else if c.toNat < 127 then [c]
  else if c.toNat < 65536 then Char.ofNat 92 :: 'u' :: hex4 c.toNat
  else
    (Char.ofNat 92 :: 'u' :: hex4 (55296 + (c.toNat - 65536) / 1024)) ++
    (Char.ofNat 92 :: 'u' :: hex4 (56320 + (c.toNat - 65536) % 1024))

/-- Escape every character of a string. -/
def jsonEscape : Str → Str
  | [] => []
  | c :: rest => jsonEscapeChar c ++ jsonEscape rest

/-- A serialized JSON string: quote, escaped body, quote. -/
def jsonQuote (s : Str) : Str :=
  Char.ofNat 34 :: (jsonEscape s ++ [Char.ofNat 34])

/-- The literal `{"content": ` opening a serialized message dict. -/
def contentKeyLit : Str :=
  [Char.ofNat 123, Char.ofNat 34, 'c', 'o', 'n', 't', 'e', 'n', 't',
   Char.ofNat 34, ':', ' ']

/-- The literal `, "role": ` between the two message fields. -/
def roleKeyLit : Str :=
  [',', ' ', Char.ofNat 34, 'r', 'o', 'l', 'e', Char.ofNat 34, ':', ' ']

/-- Serialization of one message dict with sorted keys:
`{"content": ..., "role": ...}`. -/
def messageJson (m : ChatMessage) : Str :=
  contentKeyLit ++ jsonQuote m.content ++ roleKeyLit ++ jsonQuote m.role ++ [Char.ofNat 125]

/-- Serialization of the message list body: items joined by `, `. -/
def messagesJson : List ChatMessage → Str
  | [] => []
  | [m] => messageJson m
  | m :: rest => messageJson m ++ ',' :: ' ' :: messagesJson rest

/-- The literal `{"messages": [` opening the canonical dump. -/
def messagesKeyLit : Str :=
  [Char.ofNat 123, Char.ofNat 34, 'm', 'e', 's', 's', 'a', 'g', 'e', 's',
   Char.ofNat 34, ':', ' ', '[']

/-- The literal `], "model": ` between the two top-level fields. -/
def modelKeyLit : Str :=
  [']', ',', ' ', Char.ofNat 34, 'm', 'o', 'd', 'e', 'l', Char.ofNat 34, ':', ' ']

/-- The `cache_string` of app.py:90-95: the canonical serialization
`json.dumps({"messages": messages, "model": model}, sort_keys=True)`.
The session id is not part of the input. -/
def cache_string (messages : List ChatMessage) (model : Str) : Str :=
  messagesKeyLit ++ messagesJson messages ++ modelKeyLit ++ jsonQuote model ++ [Char.ofNat 125]

/-- UTF-8 encoding of one scalar value (Python `str.encode()`). -/
def utf8Char (c : Char) : List Nat :=
  let n := c.toNat
  if n < 128 then [n]
  else if n < 2048 then [192 + n / 64, 128 + n % 64]
  else if n < 65536 then [224 + n / 4096, 128 + n / 64 % 64, 128 + n % 64]
  else [240 + n / 262144, 128 + n / 4096 % 64, 128 + n / 64 % 64, 128 + n % 64]

/-- UTF-8 encoding of a string as a byte list. -/
def utf8Encode : Str → List Nat
  | [] => []
  | c :: rest => utf8Char c ++ utf8Encode rest

/-! MD5 (`hashlib.md5`), RFC 1321, over byte lists, with 32-bit words as
naturals reduced mod 2^32. -/

/-- 2^32. -/
def M32 : Nat := 4294967296

/-- Addition mod 2^32. -/
def add32 (a b : Nat) : Nat := (a + b) % M32

/-- Left rotation of a 32-bit word. -/
def rotl32 (x s : Nat) : Nat := (x * 2 ^ s + x / 2 ^ (32 - s)) % M32

/-- Bitwise complement of a 32-bit word. -/
def not32 (x : Nat) : Nat := 4294967295 - x

/-- MD5 round function F. -/
def md5F (b c d : Nat) : Nat := Nat.lor (Nat.land b c) (Nat.land (not32 b) d)

/-- MD5 round function G. -/
def md5G (b c d : Nat) : Nat := Nat.lor (Nat.land d b) (Nat.land (not32 d) c)

/-- MD5 round function H. -/
def md5H (b c d : Nat) : Nat := Nat.xor b (Nat.xor c d)

/-- MD5 round function I. -/
def md5I (b c d : Nat) : Nat := Nat.xor c (Nat.lor b (not32 d))

/-- MD5 sine-derived constant table. -/
def md5K : List Nat :=
  [0xd76aa478, 0xe8c7b756, 0x242070db, 0xc1bdceee,
   0xf57c0faf, 0x4787c62a, 0xa8304613, 0xfd469501,
   0x698098d8, 0x8b44f7af, 0xffff5bb1, 0x895cd7be,
   0x6b901122, 0xfd987193, 0xa679438e, 0x49b40821,
   0xf61e2562, 0xc040b340, 0x265e5a51, 0xe9b6c7aa,
   0xd62f105d, 0x02441453, 0xd8a1e681, 0xe7d3fbc8,
   0x21e1cde6, 0xc33707d6, 0xf4d50d87, 0x455a14ed,
   0xa9e3e905, 0xfcefa3f8, 0x676f02d9, 0x8d2a4c8a,
   0xfffa3942, 0x8771f681, 0x6d9d6122, 0xfde5380c,
   0xa4beea44, 0x4bdecfa9, 0xf6bb4b60, 0xbebfbc70,
   0x289b7ec6, 0xeaa127fa, 0xd4ef3085, 0x04881d05,
   0xd9d4d039, 0xe6db99e5, 0x1fa27cf8, 0xc4ac5665,
   0xf4292244, 0x432aff97, 0xab9423a7, 0xfc93a039,
   0x655b59c3, 0x8f0ccc92, 0xffeff47d, 0x85845dd1,
   0x6fa87e4f, 0xfe2ce6e0, 0xa3014314, 0x4e0811a1,
   0xf7537e82, 0xbd3af235, 0x2ad7d2bb, 0xeb86d391]

/-- MD5 per-round shift amounts. -/
def md5S : List Nat :=
  [7, 12, 17, 22, 7, 12, 17, 22, 7, 12, 17, 22, 7, 12, 17, 22,
   5, 9, 14, 20, 5, 9, 14, 20, 5, 9, 14, 20, 5, 9, 14, 20,
   4, 11, 16, 23, 4, 11, 16, 23, 4, 11, 16, 23, 4, 11, 16, 23,
   6, 10, 15, 21, 6, 10, 15, 21, 6, 10, 15, 21, 6, 10, 15, 21]

/-- One of the 64 MD5 operations on the running state. -/
def md5Step (X : List Nat) (st : Nat × Nat × Nat × Nat) (i : Nat) :
    Nat × Nat × Nat × Nat :=
  let (a, b, c, d) := st
  let f :=
    if i < 16 then md5F b c d
    else if i < 32 then md5G b c d
    else if i < 48 then md5H b c d
    else md5I b c d
  let g :=
    if i < 16 then i
    else if i < 32 then (5 * i + 1) % 16
    else if i < 48 then (3 * i + 5) % 16
    else (7 * i) % 16
  let b' := add32 b (rotl32 ((a + f + md5K.getD i 0 + X.getD g 0) % M32) (md5S.getD i 0))
  (d, b', b, c)

/-- Process one 16-word block and add it into the state. -/
def md5Chunk (st0 : Nat × Nat × Nat × Nat) (X : List Nat) : Nat × Nat × Nat × Nat :=
  let (a, b, c, d) := (List.range 64).foldl (md5Step X) st0
  let (a0, b0, c0, d0) := st0
  (add32 a0 a, add32 b0 b, add32 c0 c, add32 d0 d)

/-- Group bytes into little-endian 32-bit words. -/
def leWords : List Nat → List Nat
  | b0 :: b1 :: b2 :: b3 :: rest =>
    (b0 + b1 * 256 + b2 * 65536 + b3 * 16777216) :: leWords rest
  | _ => []

/-- Split the padded message into 64-byte blocks (fuel-driven). -/
def chunks64 : Nat → List Nat → List (List Nat)
  | 0, _ => []
  | _ + 1, [] => []
  | fuel + 1, l => l.take 64 :: chunks64 fuel (l.drop 64)

/-- Little-endian 8-byte rendering of the 64-bit bit length. -/
def le8 (n : Nat) : List Nat :=
  [n % 256, n / 256 % 256, n / 65536 % 256, n / 16777216 % 256,
   n / 4294967296 % 256, n / 1099511627776 % 256,
   n / 281474976710656 % 256, n / 72057594037927936 % 256]

/-- MD5 padding: a 0x80 byte, zeros to 56 mod 64, then the bit length. -/
def md5Pad (msg : List Nat) : List Nat :=
  let len := msg.length
  let zeros := (120 - (len + 1) % 64) % 64
  msg ++ 128 :: (List.replicate zeros 0 ++ le8 (len * 8 % 18446744073709551616))

/-- The four MD5 state words of a byte message. -/
def md5Words (msg : List Nat) : Nat × Nat × Nat × Nat :=
  let padded := md5Pad msg
  (chunks64 padded.length padded).foldl (fun st chunk => md5Chunk st (leWords chunk))
    (0x67452301, 0xefcdab89, 0x98badcfe, 0x10325476)

/-- Two lowercase hex digits of one byte. -/
def byteHex (b : Nat) : Str := [hexDigitChar (b / 16 % 16), hexDigitChar (b % 16)]

/-- Hex rendering of one state word, little-endian byte order. -/
def wordLEHex (w : Nat) : Str :=
  byteHex (w % 256) ++ byteHex (w / 256 % 256) ++
  byteHex (w / 65536 % 256) ++ byteHex (w / 16777216 % 256)

/-- `hashlib.md5(data).hexdigest()`. -/
def md5hex (msg : List Nat) : Str :=
  let (a, b, c, d) := md5Words msg
  wordLEHex a ++ wordLEHex b ++ wordLEHex c ++ wordLEHex d

/-- `get_cache_key` (app.py:87-96): md5 hexdigest of the UTF-8 bytes of the
canonical dump of `{"messages": messages, "model": model}`; the
`session_id` parameter is deliberately not part of the hashed data. -/
def get_cache_key (messages : List ChatMessage) (session_id : Option Str) (model : Str) : Str :=
  md5hex (utf8Encode (cache_string messages model))

/-- C5: the session identifier has no influence on the fingerprint: for
every (messages, model) pair and any two session identifiers, the
resulting cache keys are equal. -/
theorem c5_fingerprint_ignores_session (messages : List ChatMessage) (model : Str)
    (s1 s2 : Option Str) :
    get_cache_key messages s1 model = get_cache_key messages s2 model := rfl

/-! ### A decoder for the canonical serialization

To show that distinct (messages, model) pairs always produce distinct
canonical representations, we build a decoder and prove that it recovers
the pair from `cache_string messages model`, so `cache_string` is
injective in (messages, model). -/

/-- Consume an expected literal prefix. -/
def dropLit : Str → Str → Option Str
  | [], l => some l
  | _ :: _, [] => none
  | c :: lit, x :: l => if x = c then dropLit lit l else none

/-- Value of one lowercase (or uppercase) hex digit. -/
def hexVal (c : Char) : Option Nat :=
  if 48 ≤ c.toNat ∧ c.toNat ≤ 57 then some (c.toNat - 48)
  else if 97 ≤ c.toNat ∧ c.toNat ≤ 102 then some (c.toNat - 87)
  else none

/-- Read exactly four hex digits. -/
def parseHex4 : Str → Option (Nat × Str)
  | a :: b :: c :: d :: rest =>
    match hexVal a, hexVal b, hexVal c, hexVal d with
    | some x, some y, some z, some w => some (x * 4096 + y * 256 + z * 16 + w, rest)
    | _, _, _, _ => none
  | _ => none

/-- Prepend a decoded character to a string-decoder result. -/
def consDecoded (c : Char) : Option (Str × Str) → Option (Str × Str) :=
  Option.map (fun p => (c :: p.1, p.2))

/-- Decode the escaped body of a serialized JSON string up to and
including the closing quote (fuel-driven; one unit per decoded
character). -/
def parseJStringAux : Nat → Str → Option (Str × Str)
  | 0, _ => none
  | _ + 1, [] => none
  | fuel + 1, c :: rest =>
    if c.toNat = 34 then some ([], rest)
    else if c.toNat = 92 then
      match rest with
      | [] => none
      | k :: rest2 =>
        if k.toNat = 92 then consDecoded (Char.ofNat 92) (parseJStringAux fuel rest2)
        else if k.toNat = 34 then consDecoded (Char.ofNat 34) (parseJStringAux fuel rest2)
        else if k = 'b' then consDecoded (Char.ofNat 8) (parseJStringAux fuel rest2)
        else if k = 'f' then consDecoded (Char.ofNat 12) (parseJStringAux fuel rest2)
        else if k = 'n' then consDecoded (Char.ofNat 10) (parseJStringAux fuel rest2)
        else if k = 'r' then consDecoded (Char.ofNat 13) (parseJStringAux fuel rest2)
        else if k = 't' then consDecoded (Char.ofNat 9) (parseJStringAux fuel rest2)
        else if k = 'u' then
          match parseHex4 rest2 with
          | none => none
          | some (n, rest3) =>
            if 55296 ≤ n ∧ n < 56320 then
              match rest3 with
              | b1 :: b2 :: rest4 =>
                if b1.toNat = 92 ∧ b2 = 'u' then
                  match parseHex4 rest4 with
                  | none => none
                  | some (lo, rest5) =>
                    if 56320 ≤ lo ∧ lo < 57344 then
                      consDecoded (Char.ofNat (65536 + (n - 55296) * 1024 + (lo - 56320)))
                        (parseJStringAux fuel rest5)
                    else none
                else none
              | _ => none
            else if 56320 ≤ n ∧ n < 57344 then none
            else consDecoded (Char.ofNat n) (parseJStringAux fuel rest3)
        else none
    else consDecoded c (parseJStringAux fuel rest)

/-- Decode a serialized JSON string: opening quote, body, closing quote. -/
def parseJString : Str → Option (Str × Str)
  | [] => none
  | c :: rest => if c.toNat = 34 then parseJStringAux (rest.length + 1) rest else none

/-- Decode one serialized message dict. -/
def parseMessage (l : Str) : Option (ChatMessage × Str) :=
  match dropLit contentKeyLit l with
  | none => none
  | some l1 =>
    match parseJString l1 with
    | none => none
    | some (content, l2) =>
      match dropLit roleKeyLit l2 with
      | none => none
      | some l3 =>
        match parseJString l3 with
        | none => none
        | some (role, l4) =>
          match l4 with
          | c :: l5 => if c.toNat = 125 then some (⟨role, content⟩, l5) else none
          | [] => none

/-- Decode a nonempty `, `-separated run of serialized message dicts
(fuel-driven; one unit per message). -/
def parseMessagesAux : Nat → Str → Option (List ChatMessage × Str)
  | 0, _ => none
  | fuel + 1, l =>
    match parseMessage l with
    | none => none
    | some (m, rest) =>
      match rest with
      | c1 :: rest1 =>
        if c1.toNat = 44 then
          match rest1 with
          | c2 :: rest2 =>
            if c2.toNat = 32 then
              (parseMessagesAux fuel rest2).map (fun p => (m :: p.1, p.2))
            else none
          | [] => none
        else some ([m], rest)
      | [] => some ([m], rest)

/-- Decode the (possibly empty) message-list body: an immediate `]` means
the empty list. -/
def parseMessagesTop (l : Str) : Option (List ChatMessage × Str) :=
  match l with
  | [] => none
  | c :: _ => if c.toNat = 93 then some ([], l) else parseMessagesAux (l.length + 1) l

/-- Decode a full canonical dump back into its (messages, model) pair. -/
def parseCanonical (l : Str) : Option (List ChatMessage × Str) :=
  match dropLit messagesKeyLit l with
  | none => none
  | some l1 =>
    match parseMessagesTop l1 with
    | none => none
    | some (msgs, l2) =>
      match dropLit modelKeyLit l2 with
      | none => none
      | some l3 =>
        match parseJString l3 with
        | none => none
        | some (model, l4) =>
          if l4 = [Char.ofNat 125] then some (msgs, model) else none

theorem char_valid_toNat (c : Char) :
    c.toNat < 55296 ∨ (57344 ≤ c.toNat ∧ c.toNat < 1114112) := by
  have h := c.valid
  rcases h with h | h
  · left; exact h
  · right; exact h

theorem char_toNat_ofNat (n : Nat) (h : n < 55296 ∨ (57344 ≤ n ∧ n < 1114112)) :
    (Char.ofNat n).toNat = n := by
  have hv : n.isValidChar := by
    rcases h with h | h
    · exact Or.inl h
    · exact Or.inr h
  simp [Char.ofNat, hv, Char.ofNatAux, Char.toNat, UInt32.toNat, UInt32.ofNatCore]

theorem dropLit_append (lit l : Str) : dropLit lit (lit ++ l) = some l := by
  induction lit with
  | nil => rfl
  | cons c rest ih => simp [dropLit, ih]

theorem hexVal_hexDigitChar : ∀ n, n < 16 → hexVal (hexDigitChar n) = some n := by decide

theorem parseHex4_hex4 (n : Nat) (h : n < 65536) (rest : Str) :
    parseHex4 (hex4 n ++ rest) = some (n, rest) := by
  have h1 : n / 4096 % 16 < 16 := Nat.mod_lt _ (by norm_num)
  have h2 : n / 256 % 16 < 16 := Nat.mod_lt _ (by norm_num)
  have h3 : n / 16 % 16 < 16 := Nat.mod_lt _ (by norm_num)
  have h4 : n % 16 < 16 := Nat.mod_lt _ (by norm_num)
  have e : n / 4096 % 16 * 4096 + n / 256 % 16 * 256 + n / 16 % 16 * 16 + n % 16 = n := by
    omega
  simp only [hex4, List.cons_append, List.nil_append, parseHex4,
    hexVal_hexDigitChar _ h1, hexVal_hexDigitChar _ h2,
    hexVal_hexDigitChar _ h3, hexVal_hexDigitChar _ h4, e]


theorem parseJStringAux_unicode (f : Nat) (n : Nat) (hn : n < 65536)
    (hs1 : ¬ (55296 ≤ n ∧ n < 56320)) (hs2 : ¬ (56320 ≤ n ∧ n < 57344)) (t : Str) :
    parseJStringAux (f + 1) (Char.ofNat 92 :: 'u' :: (hex4 n ++ t)) =
      consDecoded (Char.ofNat n) (parseJStringAux f t) := by
  simp +decide [parseJStringAux, parseHex4_hex4 _ hn, hs1, hs2]

theorem parseJStringAux_surrogate (f : Nat) (hi lo : Nat)
    (hhi : hi < 65536) (hlo : lo < 65536)
    (hshi : 55296 ≤ hi ∧ hi < 56320) (hslo : 56320 ≤ lo ∧ lo < 57344) (t : Str) :
    parseJStringAux (f + 1)
      (Char.ofNat 92 :: 'u' :: (hex4 hi ++ (Char.ofNat 92 :: 'u' :: (hex4 lo ++ t)))) =
      consDecoded (Char.ofNat (65536 + (hi - 55296) * 1024 + (lo - 56320)))
        (parseJStringAux f t) := by
  simp +decide [parseJStringAux, parseHex4_hex4 _ hhi, parseHex4_hex4 _ hlo, hshi, hslo]

theorem parseJStringAux_rt (s : Str) : ∀ (fuel : Nat), s.length < fuel → ∀ (rest : Str),
    parseJStringAux fuel (jsonEscape s ++ Char.ofNat 34 :: rest) = some (s, rest) := by
  induction s with
  | nil =>
    intro fuel hf rest
    cases fuel with
    | zero => exact (Nat.lt_irrefl 0 hf).elim
    | succ f => simp +decide [jsonEscape, parseJStringAux]
  | cons c s' ih =>
    intro fuel hf rest
    cases fuel with
    | zero => exact ((Nat.not_lt_zero _) hf).elim
    | succ f =>
      have hf' : s'.length < f := by
        simp only [List.length_cons] at hf
        omega
      have hrec := ih f hf' rest
      by_cases h1 : c.toNat = 92
      · have hc : Char.ofNat 92 = c := by rw [← h1, Char.ofNat_toNat]
        simp +decide [jsonEscape, jsonEscapeChar, h1, parseJStringAux, consDecoded, hrec]
        exact hc
      · by_cases h2 : c.toNat = 34
        · have hc : Char.ofNat 34 = c := by rw [← h2, Char.ofNat_toNat]
          simp +decide [jsonEscape, jsonEscapeChar, h1, h2, parseJStringAux, consDecoded,
            hrec]
          exact hc
        · by_cases h3 : c.toNat = 8
          · have hc : Char.ofNat 8 = c := by rw [← h3, Char.ofNat_toNat]
            simp +decide [jsonEscape, jsonEscapeChar, h1, h2, h3, parseJStringAux,
              consDecoded, hrec]
            exact hc
          · by_cases h4 : c.toNat = 12
            · have hc : Char.ofNat 12 = c := by rw [← h4, Char.ofNat_toNat]
              simp +decide [jsonEscape, jsonEscapeChar, h1, h2, h3, h4, parseJStringAux,
                consDecoded, hrec]
              exact hc
            · by_cases h5 : c.toNat = 10
              · have hc : Char.ofNat 10 = c := by rw [← h5, Char.ofNat_toNat]
                simp +decide [jsonEscape, jsonEscapeChar, h1, h2, h3, h4, h5,
                  parseJStringAux, consDecoded, hrec]
                exact hc
              · by_cases h6 : c.toNat = 13
                · have hc : Char.ofNat 13 = c := by rw [← h6, Char.ofNat_toNat]
                  simp +decide [jsonEscape, jsonEscapeChar, h1, h2, h3, h4, h5, h6,
                    parseJStringAux, consDecoded, hrec]
                  exact hc
                · by_cases h7 : c.toNat = 9
                  · have hc : Char.ofNat 9 = c := by rw [← h7, Char.ofNat_toNat]
                    simp +decide [jsonEscape, jsonEscapeChar, h1, h2, h3, h4, h5, h6, h7,
                      parseJStringAux, consDecoded, hrec]
                    exact hc
                  · by_cases h8 : c.toNat < 32
                    · have hlt : c.toNat < 65536 := by omega
                      have hs1 : ¬ (55296 ≤ c.toNat ∧ c.toNat < 56320) := by omega
                      have hs2 : ¬ (56320 ≤ c.toNat ∧ c.toNat < 57344) := by omega
                      have he : jsonEscapeChar c = Char.ofNat 92 :: 'u' :: hex4 c.toNat := by
                        simp [jsonEscapeChar, h1, h2, h3, h4, h5, h6, h7, h8]
                      simp only [jsonEscape, he, List.cons_append, List.append_assoc,
                        List.nil_append]
                      rw [parseJStringAux_unicode f c.toNat hlt hs1 hs2, hrec]
                      simp only [consDecoded, Option.map_some']
                      rw [Char.ofNat_toNat]
                    · by_cases h9 : c.toNat < 127
                      · simp +decide [jsonEscape, jsonEscapeChar, h1, h2, h3, h4, h5, h6,
                          h7, h8, h9, parseJStringAux, consDecoded, hrec]
                      · by_cases h10 : c.toNat < 65536
                        · have hv := char_valid_toNat c
                          have hs1 : ¬ (55296 ≤ c.toNat ∧ c.toNat < 56320) := by omega
                          have hs2 : ¬ (56320 ≤ c.toNat ∧ c.toNat < 57344) := by omega
                          have he : jsonEscapeChar c = Char.ofNat 92 :: 'u' :: hex4 c.toNat := by
                            simp [jsonEscapeChar, h1, h2, h3, h4, h5, h6, h7, h8, h9, h10]
                          simp only [jsonEscape, he, List.cons_append, List.append_assoc,
                            List.nil_append]
                          rw [parseJStringAux_unicode f c.toNat h10 hs1 hs2, hrec]
                          simp only [consDecoded, Option.map_some']
                          rw [Char.ofNat_toNat]
                        · have hv := char_valid_toNat c
                          have hub : c.toNat < 1114112 := by omega
                          have hhi : 55296 + (c.toNat - 65536) / 1024 < 65536 := by omega
                          have hlo : 56320 + (c.toNat - 65536) % 1024 < 65536 := by
                            have := Nat.mod_lt (c.toNat - 65536) (show 0 < 1024 by norm_num)
                            omega
                          have hshi : 55296 ≤ 55296 + (c.toNat - 65536) / 1024 ∧
                              55296 + (c.toNat - 65536) / 1024 < 56320 := by omega
                          have hslo : 56320 ≤ 56320 + (c.toNat - 65536) % 1024 ∧
                              56320 + (c.toNat - 65536) % 1024 < 57344 := by
                            have := Nat.mod_lt (c.toNat - 65536) (show 0 < 1024 by norm_num)
                            omega
                          have he : jsonEscapeChar c =
                              (Char.ofNat 92 :: 'u' :: hex4 (55296 + (c.toNat - 65536) / 1024)) ++
                              (Char.ofNat 92 :: 'u' :: hex4 (56320 + (c.toNat - 65536) % 1024)) := by
                            simp [jsonEscapeChar, h1, h2, h3, h4, h5, h6, h7, h8, h9, h10]
                          have harith : 65536 +
                              (55296 + (c.toNat - 65536) / 1024 - 55296) * 1024 +
                              (56320 + (c.toNat - 65536) % 1024 - 56320) = c.toNat := by
                            omega
                          simp only [jsonEscape, he, List.cons_append, List.append_assoc,
                            List.nil_append]
                          rw [parseJStringAux_surrogate f _ _ hhi hlo hshi hslo, hrec]
                          simp only [consDecoded, Option.map_some']
                          rw [harith, Char.ofNat_toNat]

set_option maxHeartbeats 1000000 in
theorem jsonEscapeChar_length_pos (c : Char) : 1 ≤ (jsonEscapeChar c).length := by
  unfold jsonEscapeChar
  split_ifs <;>
    simp only [hex4, List.length_cons, List.length_nil, List.length_append] <;> omega

theorem length_le_jsonEscape (s : Str) : s.length ≤ (jsonEscape s).length := by
  induction s with
  | nil => simp [jsonEscape]
  | cons c rest ih =>
    simp only [jsonEscape, List.length_append, List.length_cons]
    have := jsonEscapeChar_length_pos c
    omega

theorem parseJString_rt (s : Str) (rest : Str) :
    parseJString (jsonQuote s ++ rest) = some (s, rest) := by
  have hshape : jsonQuote s ++ rest =
      Char.ofNat 34 :: (jsonEscape s ++ Char.ofNat 34 :: rest) := by
    simp [jsonQuote]
  rw [hshape]
  have hlen : s.length < (jsonEscape s ++ Char.ofNat 34 :: rest).length + 1 := by
    have := length_le_jsonEscape s
    simp only [List.length_append, List.length_cons]
    omega
  simp +decide only [parseJString]
  exact parseJStringAux_rt s _ hlen rest

theorem parseMessage_rt (m : ChatMessage) (r : Str) :
    parseMessage (messageJson m ++ r) = some (m, r) := by
  simp +decide [parseMessage, messageJson, List.append_assoc, dropLit_append,
    parseJString_rt]

theorem one_le_messageJson_length (m : ChatMessage) : 1 ≤ (messageJson m).length := by
  simp [messageJson, contentKeyLit]

theorem length_le_messagesJson (msgs : List ChatMessage) :
    msgs.length ≤ (messagesJson msgs).length := by
  induction msgs with
  | nil => simp [messagesJson]
  | cons m tl ih =>
    cases tl with
    | nil =>
      simpa [messagesJson] using one_le_messageJson_length m
    | cons m2 tl2 =>
      simp only [messagesJson, List.length_append, List.length_cons]
      have h1 := one_le_messageJson_length m
      simp only [List.length_cons] at ih ⊢
      omega

theorem parseMessagesAux_rt (tl : List ChatMessage) : ∀ (m : ChatMessage) (fuel : Nat),
    tl.length < fuel → ∀ (r : Str),
    parseMessagesAux fuel (messagesJson (m :: tl) ++ ']' :: r) =
      some (m :: tl, ']' :: r) := by
  induction tl with
  | nil =>
    intro m fuel hf r
    cases fuel with
    | zero => exact (Nat.lt_irrefl 0 hf).elim
    | succ f =>
      simp +decide [messagesJson, parseMessagesAux, parseMessage_rt]
  | cons m2 tl2 ih =>
    intro m fuel hf r
    cases fuel with
    | zero => exact ((Nat.not_lt_zero _) hf).elim
    | succ f =>
      have hf2 : tl2.length < f := by
        simp only [List.length_cons] at hf
        omega
      have hrec := ih m2 f hf2 r
      have hshape : messagesJson (m :: m2 :: tl2) ++ ']' :: r =
          messageJson m ++ (',' :: ' ' :: (messagesJson (m2 :: tl2) ++ ']' :: r)) := by
        simp [messagesJson]
      rw [hshape]
      simp +decide [parseMessagesAux, parseMessage_rt, hrec]

/-- Tail of `modelKeyLit` after its leading `]`. -/
def modelRestLit : Str :=
  [',', ' ', Char.ofNat 34, 'm', 'o', 'd', 'e', 'l', Char.ofNat 34, ':', ' ']

theorem modelKeyLit_cons : modelKeyLit = ']' :: modelRestLit := rfl

theorem parseMessagesTop_ne (c : Char) (hc : ¬ c.toNat = 93) (t : Str) :
    parseMessagesTop (c :: t) = parseMessagesAux ((c :: t).length + 1) (c :: t) := by
  simp [parseMessagesTop, hc]

theorem parseMessagesTop_rt (msgs : List ChatMessage) (r : Str) :
    parseMessagesTop (messagesJson msgs ++ ']' :: r) = some (msgs, ']' :: r) := by
  cases msgs with
  | nil => simp +decide [messagesJson, parseMessagesTop]
  | cons m tl =>
    obtain ⟨t, ht⟩ : ∃ t, messageJson m = Char.ofNat 123 :: t := ⟨_, rfl⟩
    obtain ⟨u, hu⟩ : ∃ u, messagesJson (m :: tl) = messageJson m ++ u := by
      cases tl with
      | nil => exact ⟨[], (List.append_nil _).symm⟩
      | cons m2 tl2 => exact ⟨_, rfl⟩
    have hinput : messagesJson (m :: tl) ++ ']' :: r =
        Char.ofNat 123 :: (t ++ (u ++ ']' :: r)) := by
      rw [hu, ht]
      simp [List.append_assoc]
    have hne : ¬ (Char.ofNat 123).toNat = 93 := by decide
    rw [hinput, parseMessagesTop_ne _ hne, ← hinput]
    refine parseMessagesAux_rt tl m _ ?_ r
    have h1 := length_le_messagesJson (m :: tl)
    simp only [List.length_append, List.length_cons] at h1 ⊢
    omega

theorem parseMessagesTop_rt_model (msgs : List ChatMessage) (y : Str) :
    parseMessagesTop (messagesJson msgs ++ (modelKeyLit ++ y)) =
      some (msgs, modelKeyLit ++ y) := by
  have hshape : (modelKeyLit : Str) ++ y = ']' :: (modelRestLit ++ y) := by
    rw [modelKeyLit_cons]
    rfl
  rw [hshape, parseMessagesTop_rt]

theorem parseCanonical_rt (msgs : List ChatMessage) (model : Str) :
    parseCanonical (cache_string msgs model) = some (msgs, model) := by
  simp +decide [parseCanonical, cache_string, List.append_assoc, dropLit_append,
    parseMessagesTop_rt_model, parseJString_rt]

theorem cache_string_injective (ms1 ms2 : List ChatMessage) (mo1 mo2 : Str)
    (h : cache_string ms1 mo1 = cache_string ms2 mo2) : ms1 = ms2 ∧ mo1 = mo2 := by
  have h1 := parseCanonical_rt ms1 mo1
  rw [h, parseCanonical_rt ms2 mo2] at h1
  have h2 : (ms2, mo2) = (ms1, mo1) := Option.some.inj h1
  obtain ⟨ha, hb⟩ := Prod.mk.injEq .. ▸ h2
  exact ⟨ha.symm, hb.symm⟩

/-- C6: the fingerprint is a pure function of (messages, model): identical
pairs give byte-identical keys regardless of session or process run; and
distinct pairs always give distinct canonical representations (so distinct
keys up to hash collision). -/
theorem c6_fingerprint_deterministic_canonical_injective
    (ms1 ms2 : List ChatMessage) (mo1 mo2 : Str) (s1 s2 : Option Str) :
    (ms1 = ms2 → mo1 = mo2 → get_cache_key ms1 s1 mo1 = get_cache_key ms2 s2 mo2)
    ∧ (cache_string ms1 mo1 = cache_string ms2 mo2 → ms1 = ms2 ∧ mo1 = mo2) := by
  constructor
  · intro hm ho
    subst hm
    subst ho
    rfl
  · exact cache_string_injective ms1 ms2 mo1 mo2

/-- Witness for C6 at concrete inputs: equal (messages, model) under two
different session ids give the same key, and equal canonical strings force
equal inputs. -/
theorem c6_fingerprint_deterministic_canonical_injective_witness :
    get_cache_key [] none ['m'] = get_cache_key [] (some ['s']) ['m']
    ∧ (([] : List ChatMessage) = [] ∧ (['m'] : Str) = ['m']) :=
  ⟨(c6_fingerprint_deterministic_canonical_injective [] [] ['m'] ['m'] none
      (some ['s'])).1 rfl rfl,
   (c6_fingerprint_deterministic_canonical_injective [] [] ['m'] ['m'] none
      (some ['s'])).2 rfl⟩

/-! ### The chat client `send_chat_message` (app.py:133-184)

The network is an explicit parameter: the outcome `requests.post` would
have produced. The try body is modelled as an `Except` value paired with
the store and filesystem as they stand when the body finishes or raises;
the surrounding except arms turn either exception kind into the structured
error dict, keeping whatever mutations already happened. -/

/-- Outcome of `requests.post` on the chat endpoint: a response carrying a
status code, a body that may or may not decode as JSON, and its raw text;
or a raised `requests.exceptions.RequestException`. -/
inductive NetResult where
  | response (status : Nat) (jsonBody : Option Json) (text : Str)
  | requestException (msg : Str)

/-- An exception escaping the try body: a RequestException from the
network call, or any other exception — in this code path the
JSONDecodeError raised by the eager `response.json()` in the debug-log
f-string (app.py:162) when the body is not JSON. -/
inductive PyError where
  | requestExc (msg : Str)
  | otherExc (msg : Str)

/-- Decimal digits of a natural number (fuel-driven), for the f-string
rendering of `response.status_code`. -/
def natDecAux : Nat → Nat → Str
  | 0, _ => []
  | fuel + 1, n =>
    if n < 10 then [Char.ofNat (48 + n)]
    else natDecAux fuel (n / 10) ++ [Char.ofNat (48 + n % 10)]

/-- Python `str(n)` for a natural number. -/
def natToDec (n : Nat) : Str := natDecAux (n + 1) n

/-- The literal `API request failed: `. -/
def apiFailedLit : Str :=
  ['A', 'P', 'I', ' ', 'r', 'e', 'q', 'u', 'e', 's', 't', ' ',
   'f', 'a', 'i', 'l', 'e', 'd', ':', ' ']

/-- The literal ` - ` between status code and body text. -/
def dashLit : Str := [' ', '-', ' ']

/-- The literal `Network error occurred: `. -/
def networkErrorLit : Str :=
  ['N', 'e', 't', 'w', 'o', 'r', 'k', ' ', 'e', 'r', 'r', 'o', 'r', ' ',
   'o', 'c', 'c', 'u', 'r', 'r', 'e', 'd', ':', ' ']

/-- The literal `An error occurred: `. -/
def anErrorLit : Str :=
  ['A', 'n', ' ', 'e', 'r', 'r', 'o', 'r', ' ',
   'o', 'c', 'c', 'u', 'r', 'r', 'e', 'd', ':', ' ']

/-- The literal `error`, both the dict key and the status value. -/
def errorLit : Str := ['e', 'r', 'r', 'o', 'r']

/-- The literal `status`. -/
def statusLit : Str := ['s', 't', 'a', 't', 'u', 's']

/-- Leading text of `str(e)` for a JSONDecodeError. -/
def jsonDecodeErrorLit : Str :=
  ['E', 'x', 'p', 'e', 'c', 't', 'i', 'n', 'g', ' ', 'v', 'a', 'l', 'u', 'e']

/-- The structured error value `{"error": msg, "status": "error"}`. -/
def errorDict (msg : Str) : Json :=
  Json.obj [(errorLit, Json.str msg), (statusLit, Json.str errorLit)]

/-- The try body of `send_chat_message` (app.py:135-173): compute the
fingerprint, consult the cache (which may evict a stale entry and
persist), return a hit immediately; on a miss the response body is decoded
eagerly for the debug log, so an undecodable body raises before the status
check; exactly status 200 stores the decoded payload and returns it; any
other status returns the structured error dict with the status code and
raw body. -/
def send_chat_message_try (messages : List ChatMessage) (session_id : Option Str)
    (model : Str) (net : NetResult) (now : Int) (st : Store) (fs : FileSystem) :
    Except PyError Json × Store × FileSystem :=
  let cache_key := get_cache_key messages session_id model
  match get_cached_response now cache_key st fs with
  | (some cached_response, st1, fs1) => (Except.ok cached_response, st1, fs1)
  | (none, st1, fs1) =>
    match net with
    | NetResult.requestException msg => (Except.error (PyError.requestExc msg), st1, fs1)
    | NetResult.response status jsonBody text =>
      match jsonBody with
      | none => (Except.error (PyError.otherExc jsonDecodeErrorLit), st1, fs1)
      | some body =>
        if status = 200 then
          let (st2, fs2) := set_cached_response now cache_key body st1 fs1
          (Except.ok body, st2, fs2)
        else
          (Except.ok (errorDict (apiFailedLit ++ natToDec status ++ dashLit ++ text)),
            st1, fs1)

/-- `send_chat_message` (app.py:133-184): the try body plus the two except
arms (app.py:175-184), which convert a RequestException or any other
exception into `{"error": ..., "status": "error"}`; mutations made before
the raise are kept. -/
def send_chat_message (messages : List ChatMessage) (session_id : Option Str)
    (model : Str) (net : NetResult) (now : Int) (st : Store) (fs : FileSystem) :
    Json × Store × FileSystem :=
  match send_chat_message_try messages session_id model net now st fs with
  | (Except.ok r, st1, fs1) => (r, st1, fs1)
  | (Except.error (PyError.requestExc msg), st1, fs1) =>
    (errorDict (networkErrorLit ++ msg), st1, fs1)
  | (Except.error (PyError.otherExc msg), st1, fs1) =>
    (errorDict (anErrorLit ++ msg), st1, fs1)

/-- Whether a JSON value is an object (a Python dict). -/
def isJsonObj : Json → Bool
  | Json.obj _ => true
  | _ => false

/-! ### Lemmas about the send path -/

theorem get_cached_cases (now : Int) (key : Str) (st : Store) (fs : FileSystem) :
    (∃ e, lookupKey key st = some e ∧ now - e.timestamp < CACHE_DURATION ∧
      get_cached_response now key st fs = (some e.response, st, fs))
    ∨ (∃ e, lookupKey key st = some e ∧ ¬ (now - e.timestamp < CACHE_DURATION) ∧
      get_cached_response now key st fs =
        (none, dictDel key st, save_cache_to_file (dictDel key st) fs))
    ∨ (lookupKey key st = none ∧ get_cached_response now key st fs = (none, st, fs)) := by
  rcases hl : lookupKey key st with _ | e
  · exact Or.inr (Or.inr ⟨rfl, by simp [get_cached_response, hl]⟩)
  · by_cases hf : now - e.timestamp < CACHE_DURATION
    · exact Or.inl ⟨e, rfl, hf, by simp [get_cached_response, hl, hf]⟩
    · exact Or.inr (Or.inl ⟨e, rfl, hf, by simp [get_cached_response, hl, hf]⟩)

theorem send_hit_eq (messages : List ChatMessage) (session_id : Option Str) (model : Str)
    (now : Int) (st : Store) (fs : FileSystem) (e : CacheEntry)
    (hl : lookupKey (get_cache_key messages session_id model) st = some e)
    (hf : now - e.timestamp < CACHE_DURATION) (net : NetResult) :
    send_chat_message messages session_id model net now st fs = (e.response, st, fs) := by
  simp [send_chat_message, send_chat_message_try, get_cached_response, hl, hf]

theorem send_after_miss (messages : List ChatMessage) (session_id : Option Str)
    (model : Str) (now : Int) (st : Store) (fs : FileSystem) (st1 : Store)
    (fs1 : FileSystem)
    (hget : get_cached_response now (get_cache_key messages session_id model) st fs
      = (none, st1, fs1)) :
    (∀ msg, send_chat_message messages session_id model
        (NetResult.requestException msg) now st fs
      = (errorDict (networkErrorLit ++ msg), st1, fs1))
    ∧ (∀ status text, send_chat_message messages session_id model
        (NetResult.response status none text) now st fs
      = (errorDict (anErrorLit ++ jsonDecodeErrorLit), st1, fs1))
    ∧ (∀ body text, send_chat_message messages session_id model
        (NetResult.response 200 (some body) text) now st fs
      = (body,
         dictSet (get_cache_key messages session_id model)
           { response := body, timestamp := now } st1,
         save_cache_to_file
           (dictSet (get_cache_key messages session_id model)
             { response := body, timestamp := now } st1) fs1))
    ∧ (∀ status body text, ¬ status = 200 →
        send_chat_message messages session_id model
          (NetResult.response status (some body) text) now st fs
        = (errorDict (apiFailedLit ++ natToDec status ++ dashLit ++ text), st1, fs1)) := by
  refine ⟨?_, ?_, ?_, ?_⟩ <;> intros <;>
    simp [send_chat_message, send_chat_message_try, hget, set_cached_response, *]

theorem send_new_entries (messages : List ChatMessage) (session_id : Option Str)
    (model : Str) (net : NetResult) (now : Int) (st : Store) (fs : FileSystem)
    (hnd : (st.map Prod.fst).Nodup) :
    ∀ k v, lookupKey k
        (send_chat_message messages session_id model net now st fs).2.1 = some v →
      lookupKey k st = some v ∨
      ∃ body text, net = NetResult.response 200 (some body) text ∧
        v = { response := body, timestamp := now } := by
  intro k v hkv
  rcases get_cached_cases now (get_cache_key messages session_id model) st fs with
    ⟨e, hl, hf, _⟩ | ⟨e, hl, hf, hget⟩ | ⟨hl, hget⟩
  · rw [send_hit_eq messages session_id model now st fs e hl hf net] at hkv
    exact Or.inl hkv
  · have hm := send_after_miss messages session_id model now st fs _ _ hget
    have hdel : ∀ q w, lookupKey q (dictDel (get_cache_key messages session_id model) st)
        = some w → lookupKey q st = some w := by
      intro q w hq
      rw [lookupKey_dictDel q _ st hnd] at hq
      by_cases hqk : get_cache_key messages session_id model = q
      · simp [hqk] at hq
      · simpa [hqk] using hq
    rcases net with ⟨status, jsonBody, text⟩ | msg
    · rcases jsonBody with _ | body
      · rw [(hm.2.1 status text :
          send_chat_message messages session_id model
            (NetResult.response status none text) now st fs = _)] at hkv
        exact Or.inl (hdel k v hkv)
      · by_cases hs : status = 200
        · subst hs
          rw [hm.2.2.1 body text] at hkv
          simp only [lookupKey_dictSet] at hkv
          by_cases hqk : get_cache_key messages session_id model = k
          · simp only [hqk, if_pos rfl] at hkv
            exact Or.inr ⟨body, text, rfl, (Option.some.inj hkv).symm⟩
          · simp only [if_neg hqk] at hkv
            exact Or.inl (hdel k v hkv)
        · rw [hm.2.2.2 status body text hs] at hkv
          exact Or.inl (hdel k v hkv)
    · rw [hm.1 msg] at hkv
      exact Or.inl (hdel k v hkv)
  · have hm := send_after_miss messages session_id model now st fs _ _ hget
    rcases net with ⟨status, jsonBody, text⟩ | msg
    · rcases jsonBody with _ | body
      · rw [hm.2.1 status text] at hkv
        exact Or.inl hkv
      · by_cases hs : status = 200
        · subst hs
          rw [hm.2.2.1 body text] at hkv
          simp only [lookupKey_dictSet] at hkv
          by_cases hqk : get_cache_key messages session_id model = k
          · simp only [hqk, if_pos rfl] at hkv
            exact Or.inr ⟨body, text, rfl, (Option.some.inj hkv).symm⟩
          · simp only [if_neg hqk] at hkv
            exact Or.inl hkv
        · rw [hm.2.2.2 status body text hs] at hkv
          exact Or.inl hkv
    · rw [hm.1 msg] at hkv
      exact Or.inl hkv

/-- C3 counterexample: a successful 2xx status that is not exactly 200
(here 201 with a decodable body) is NOT stored or returned — the client
checks `status_code == 200` only and returns the structured error dict;
and a non-2xx response whose body fails to decode yields the generic
exception dict without the status and raw body (the debug-log
`response.json()` raises first). -/
theorem c3_counterexample_201_and_undecodable :
    (send_chat_message [] none ['m']
        (NetResult.response 201 (some Json.null) []) 0 [] emptyFS).1
      = errorDict (apiFailedLit ++ natToDec 201 ++ dashLit ++ [])
    ∧ (send_chat_message [] none ['m']
        (NetResult.response 201 (some Json.null) []) 0 [] emptyFS).1 ≠ Json.null
    ∧ (send_chat_message [] none ['m']
        (NetResult.response 201 (some Json.null) []) 0 [] emptyFS).2.1 = []
    ∧ (send_chat_message [] none ['m']
        (NetResult.response 404 none ['x']) 0 [] emptyFS).1
      = errorDict (anErrorLit ++ jsonDecodeErrorLit) :=
  ⟨rfl, fun h => absurd (congrArg isJsonObj h) (by decide), rfl, rfl⟩

/-- C3 amended: on a fresh cache hit the cached response is returned with
no influence from (hence no call to) the network, and no state change; on
a miss with a JSON-decodable body, a status of exactly 200 stores the
decoded payload via set and returns it, while any other status returns a
structured error value (not an exception) carrying the status code and
raw body text and leaves the state unchanged. -/
theorem c3_hit_returns_cached_miss_200_stores (messages : List ChatMessage)
    (session_id : Option Str) (model : Str) (now : Int) (st : Store) (fs : FileSystem) :
    (∀ e, lookupKey (get_cache_key messages session_id model) st = some e →
      now - e.timestamp < CACHE_DURATION →
      ∀ net, send_chat_message messages session_id model net now st fs
        = (e.response, st, fs))
    ∧ (∀ body text, lookupKey (get_cache_key messages session_id model) st = none →
        send_chat_message messages session_id model
          (NetResult.response 200 (some body) text) now st fs
        = (body,
           dictSet (get_cache_key messages session_id model)
             { response := body, timestamp := now } st,
           save_cache_to_file
             (dictSet (get_cache_key messages session_id model)
               { response := body, timestamp := now } st) fs))
    ∧ (∀ status body text, lookupKey (get_cache_key messages session_id model) st = none →
        ¬ status = 200 →
        send_chat_message messages session_id model
          (NetResult.response status (some body) text) now st fs
        = (errorDict (apiFailedLit ++ natToDec status ++ dashLit ++ text), st, fs)) := by
  refine ⟨?_, ?_, ?_⟩
  · intro e hl hf net
    exact send_hit_eq messages session_id model now st fs e hl hf net
  · intro body text hl
    exact (send_after_miss messages session_id model now st fs st fs
      (by simp [get_cached_response, hl])).2.2.1 body text
  · intro status body text hl hs
    exact (send_after_miss messages session_id model now st fs st fs
      (by simp [get_cached_response, hl])).2.2.2 status body text hs

/-- Witness for the amended C3 at concrete inputs: a fresh hit ignores the
network; a miss with status 200 stores and returns the payload; a miss
with status 404 returns the error dict and leaves the store empty. -/
theorem c3_hit_returns_cached_miss_200_stores_witness :
    lookupKey (get_cache_key [] none ['m'])
        [(get_cache_key [] none ['m'],
          ({ response := Json.null, timestamp := 0 } : CacheEntry))]
      = some { response := Json.null, timestamp := 0 }
    ∧ ((0 : Int) - 0 < CACHE_DURATION)
    ∧ send_chat_message [] none ['m'] (NetResult.requestException ['x']) 0
        [(get_cache_key [] none ['m'],
          ({ response := Json.null, timestamp := 0 } : CacheEntry))] emptyFS
      = (Json.null,
         [(get_cache_key [] none ['m'],
           ({ response := Json.null, timestamp := 0 } : CacheEntry))], emptyFS)
    ∧ lookupKey (get_cache_key [] none ['m']) [] = none
    ∧ send_chat_message [] none ['m']
        (NetResult.response 200 (some (Json.bool true)) []) 0 [] emptyFS
      = (Json.bool true,
         dictSet (get_cache_key [] none ['m'])
           { response := Json.bool true, timestamp := 0 } [],
         save_cache_to_file
           (dictSet (get_cache_key [] none ['m'])
             { response := Json.bool true, timestamp := 0 } []) emptyFS)
    ∧ ¬ (404 : Nat) = 200
    ∧ send_chat_message [] none ['m']
        (NetResult.response 404 (some Json.null) ['x']) 0 [] emptyFS
      = (errorDict (apiFailedLit ++ natToDec 404 ++ dashLit ++ ['x']), [], emptyFS) := by
  refine ⟨by simp [lookupKey], by decide, ?_, rfl, ?_, by decide, ?_⟩
  · exact (c3_hit_returns_cached_miss_200_stores [] none ['m'] 0
        [(get_cache_key [] none ['m'], { response := Json.null, timestamp := 0 })]
        emptyFS).1
      { response := Json.null, timestamp := 0 } (by simp [lookupKey]) (by decide)
      (NetResult.requestException ['x'])
  · exact (c3_hit_returns_cached_miss_200_stores [] none ['m'] 0 [] emptyFS).2.1
      (Json.bool true) [] rfl
  · exact (c3_hit_returns_cached_miss_200_stores [] none ['m'] 0 [] emptyFS).2.2
      404 Json.null ['x'] rfl (by decide)

/-- C4: the cache is populated only by the status-200 path: after any
send, every binding in the store either existed before unchanged or is
the decoded payload of this call's 200 response with this call's
timestamp; in particular a non-200 response or a transport failure adds
or changes nothing. -/
theorem c4_error_results_never_populate_cache (messages : List ChatMessage)
    (session_id : Option Str) (model : Str) (net : NetResult) (now : Int)
    (st : Store) (fs : FileSystem) (hnd : (st.map Prod.fst).Nodup) :
    (∀ k v, lookupKey k
        (send_chat_message messages session_id model net now st fs).2.1 = some v →
      lookupKey k st = some v ∨
      ∃ body text, net = NetResult.response 200 (some body) text ∧
        v = { response := body, timestamp := now })
    ∧ (∀ status jsonBody text, net = NetResult.response status jsonBody text →
        ¬ status = 200 →
        ∀ k v, lookupKey k
            (send_chat_message messages session_id model net now st fs).2.1 = some v →
          lookupKey k st = some v)
    ∧ (∀ msg, net = NetResult.requestException msg →
        ∀ k v, lookupKey k
            (send_chat_message messages session_id model net now st fs).2.1 = some v →
          lookupKey k st = some v) := by
  refine ⟨send_new_entries messages session_id model net now st fs hnd, ?_, ?_⟩
  · intro status jsonBody text hnet hs k v hkv
    rcases send_new_entries messages session_id model net now st fs hnd k v hkv with
      h | ⟨body, text', hnet', _⟩
    · exact h
    · rw [hnet] at hnet'
      cases hnet'
      exact absurd rfl hs
  · intro msg hnet k v hkv
    rcases send_new_entries messages session_id model net now st fs hnd k v hkv with
      h | ⟨body, text', hnet', _⟩
    · exact h
    · rw [hnet] at hnet'
      exact NetResult.noConfusion hnet'

/-- Witness for C4 at concrete inputs: a 500 response and a transport
failure leave the empty store empty. -/
theorem c4_error_results_never_populate_cache_witness :
    ((([] : Store).map Prod.fst).Nodup)
    ∧ (¬ (500 : Nat) = 200)
    ∧ (∀ k v, lookupKey k
        (send_chat_message [] none ['m'] (NetResult.response 500 (some Json.null) ['b'])
          0 [] emptyFS).2.1 = some v →
      lookupKey k ([] : Store) = some v)
    ∧ (∀ k v, lookupKey k
        (send_chat_message [] none ['m'] (NetResult.requestException ['t'])
          0 [] emptyFS).2.1 = some v →
      lookupKey k ([] : Store) = some v) :=
  ⟨by decide, by decide,
   (c4_error_results_never_populate_cache [] none ['m']
      (NetResult.response 500 (some Json.null) ['b']) 0 [] emptyFS (by decide)).2.1
      500 (some Json.null) ['b'] rfl (by decide),
   (c4_error_results_never_populate_cache [] none ['m']
      (NetResult.requestException ['t']) 0 [] emptyFS (by decide)).2.2
      ['t'] rfl⟩

/-- C10 counterexample: sendMessage does not always return a dictionary:
a 200 response whose decoded body is a JSON array is returned as-is. -/
theorem c10_counterexample_non_dict_payload :
    isJsonObj (send_chat_message [] none ['m']
      (NetResult.response 200 (some (Json.arr [])) []) 0 [] emptyFS).1 = false := rfl

/-- C10 amended: sendMessage never propagates an exception: whenever the
try body raises a RequestException or any other exception, the result is
the structured dict `{"error": ..., "status": "error"}` built by the
matching except arm; on the non-raising paths the try body's value is
returned unchanged (the decoded or cached payload, which need not be a
dictionary). -/
theorem c10_send_total_no_exception (messages : List ChatMessage)
    (session_id : Option Str) (model : Str) (net : NetResult) (now : Int)
    (st : Store) (fs : FileSystem) :
    (∀ msg st1 fs1,
      send_chat_message_try messages session_id model net now st fs
        = (Except.error (PyError.requestExc msg), st1, fs1) →
      send_chat_message messages session_id model net now st fs
        = (errorDict (networkErrorLit ++ msg), st1, fs1))
    ∧ (∀ msg st1 fs1,
      send_chat_message_try messages session_id model net now st fs
        = (Except.error (PyError.otherExc msg), st1, fs1) →
      send_chat_message messages session_id model net now st fs
        = (errorDict (anErrorLit ++ msg), st1, fs1))
    ∧ (∀ r st1 fs1,
      send_chat_message_try messages session_id model net now st fs
        = (Except.ok r, st1, fs1) →
      send_chat_message messages session_id model net now st fs = (r, st1, fs1)) := by
  refine ⟨?_, ?_, ?_⟩ <;> intro a st1 fs1 h <;> simp [send_chat_message, h]

/-- Witness for the amended C10 at concrete inputs: a transport failure
and an undecodable body both come back as error dicts, and a 200 payload
comes back unchanged. -/
theorem c10_send_total_no_exception_witness :
    send_chat_message_try [] none ['m'] (NetResult.requestException ['t']) 0 [] emptyFS
      = (Except.error (PyError.requestExc ['t']), [], emptyFS)
    ∧ send_chat_message [] none ['m'] (NetResult.requestException ['t']) 0 [] emptyFS
      = (errorDict (networkErrorLit ++ ['t']), [], emptyFS)
    ∧ send_chat_message_try [] none ['m'] (NetResult.response 404 none ['x']) 0 [] emptyFS
      = (Except.error (PyError.otherExc jsonDecodeErrorLit), [], emptyFS)
    ∧ send_chat_message [] none ['m'] (NetResult.response 404 none ['x']) 0 [] emptyFS
      = (errorDict (anErrorLit ++ jsonDecodeErrorLit), [], emptyFS) :=
  ⟨rfl,
   (c10_send_total_no_exception [] none ['m'] (NetResult.requestException ['t'])
      0 [] emptyFS).1 ['t'] [] emptyFS rfl,
   rfl,
   (c10_send_total_no_exception [] none ['m'] (NetResult.response 404 none ['x'])
      0 [] emptyFS).2.1 jsonDecodeErrorLit [] emptyFS rfl⟩
